import Mathlib

/-!
Shallow embedding of the review-consistency and statistics-refresh pipeline of
the image_processing repository (src/app/models.py, src/app/validators.py,
src/app/routes.py, src/app/processing/scene_handler.py).

Modelling conventions:
* timestamps (datetime.utcnow / datetime.now) are abstract Nat values supplied
  by the caller as a `now` argument;
* the database state is a single RoomScene together with its components (all
  routes under scrutiny fetch one component and its owning scene); fields of
  the Python models that no claim touches (name, file_path, position_data,
  confidence_score, scene_metadata, created_at, updated_at) are omitted;
* each route handler returns the pair (persisted database state after the
  request, HTTP-level response).  Commit/rollback reasoning: `db_session`
  (src/app/database.py) commits on normal exit and never commits when an
  exception propagates; `RoomScene.update_statistics` calls
  `db.session.commit()` itself, so mutations made before it are persisted even
  if the handler fails later.  `RoomScene` has no method
  `update_review_progress`, so the calls `scene.update_review_progress()` in
  routes.py (lines 243 and 402) raise AttributeError at runtime, which the
  `handle_errors` decorator turns into a 500 response.
-/

namespace ImageProcessing

/-- Status enum from src/app/models.py (ComponentStatus). -/
inductive ComponentStatus
  | pending
  | accepted
  | rejected
  deriving DecidableEq, Repr

/-- Component row (src/app/models.py, class Component), restricted to the
fields the claims are about. -/
structure Component where
  id : Nat
  room_scene_id : Nat
  component_type : String
  status : ComponentStatus
  review_timestamp : Option Nat
  reviewer_notes : Option String
  deriving DecidableEq, Repr

/-- RoomScene row (src/app/models.py, class RoomScene), restricted to the
fields the claims are about. -/
structure RoomScene where
  id : Nat
  category : String
  total_components : Nat
  pending_components : Nat
  accepted_components : Nat
  rejected_components : Nat
  review_completion_time : Option Nat
  deriving DecidableEq, Repr

/-- Persisted database state: one scene and its components. -/
structure DB where
  scene : RoomScene
  components : List Component
  deriving DecidableEq, Repr

/-- RoomScene.update_statistics (src/app/models.py lines 43-50): recomputes the
four counters from the scene's components and commits.  Mirrors
`sum(1 for c in components if c.status == X)` per status and
`len(components)` for the total. -/
def RoomScene.update_statistics (scene : RoomScene) (components : List Component) :
    RoomScene :=
  { scene with
    total_components := components.length
    pending_components :=
      components.countP (fun c => decide (c.status = ComponentStatus.pending))
    accepted_components :=
      components.countP (fun c => decide (c.status = ComponentStatus.accepted))
    rejected_components :=
      components.countP (fun c => decide (c.status = ComponentStatus.rejected)) }

/-- Database-level view of RoomScene.update_statistics: the scene's counters
are recomputed from the component list; no other field is touched. -/
def DB.update_statistics (db : DB) : DB :=
  { db with scene := db.scene.update_statistics db.components }

/-- Truthiness of the Python `notes` value (`if notes:`): None and the empty
string are falsy, every other string is truthy. -/
def strTruthy : Option String → Bool
  | none => false
  | some s => !(s == "")

/-- Component.update_status (src/app/models.py lines 78-86): sets the status,
stamps review_timestamp with the current time, stores the notes when they are
truthy, and leaves the previous notes otherwise. -/
def Component.update_status (c : Component) (new_status : ComponentStatus)
    (notes : Option String) (now : Nat) : Component :=
  { c with
    status := new_status
    review_timestamp := some now
    reviewer_notes := if strTruthy notes then notes else c.reviewer_notes }

/-- Database-level effect of `component.update_status(...)`: the target
component (matched by id) is updated, then the owning scene's statistics are
recomputed (the final line of Component.update_status calls
`self.room_scene.update_statistics()`, which commits). -/
def DB.update_status (db : DB) (cid : Nat) (new_status : ComponentStatus)
    (notes : Option String) (now : Nat) : DB :=
  DB.update_statistics
    { db with
      components := db.components.map
        (fun c => if c.id == cid then c.update_status new_status notes now else c) }

/-- session.get(Component, component_id) over the modelled state. -/
def DB.findComponent (db : DB) (cid : Nat) : Option Component :=
  db.components.find? (fun c => c.id == cid)

/-! Validators, from src/app/validators.py. -/

/-- Values of the RoomCategory enum (src/app/validators.py lines 3-8). -/
def roomCategories : List String :=
  ["living_room", "bedroom", "kitchen", "bathroom", "dining_room"]

/-- Values of the ComponentType enum (src/app/validators.py lines 10-14). -/
def componentTypes : List String :=
  ["furniture", "appliance", "fixture", "decor"]

/-- ROOM_COMPONENT_MAPPINGS (src/app/validators.py lines 17-42), as a total
function on category strings; categories outside the table map to []. -/
def roomComponentMappings (room : String) : List String :=
  if room == "living_room" then ["furniture", "decor"]
  else if room == "kitchen" then ["furniture", "appliance", "fixture"]
  else if room == "bedroom" then ["furniture", "decor", "fixture"]
  else if room == "bathroom" then ["fixture", "furniture"]
  else if room == "dining_room" then ["furniture", "decor", "fixture"]
  else []

/-- validate_component_category (src/app/validators.py lines 44-57).
`RoomCategory(room_category)` and `ComponentType(component_type)` raise
ValueError for values outside the enums; both failures land in the same
except branch returning (False, "Invalid room category or component type"). -/
def validate_component_category (room_category component_type : String) :
    Bool × String :=
  if room_category ∈ roomCategories then
    if component_type ∈ componentTypes then
      if component_type ∈ roomComponentMappings room_category then
        (true, "Valid component type for " ++ room_category)
      else
        (false, "Component type \x27" ++ component_type ++ "\x27 not valid for "
          ++ room_category ++ ". Valid types: "
          ++ String.intercalate ", " (roomComponentMappings room_category))
    else (false, "Invalid room category or component type")
  else (false, "Invalid room category or component type")

/-! Route handlers, from src/app/routes.py. -/

/-- HTTP-level outcome of a route handler. -/
inductive Response
  | ok
  | notFound (msg : String)
  | badRequest (msg : String)
  | serverError (msg : String)
  deriving DecidableEq, Repr

/-- accept_component (src/app/routes.py lines 201-223): fetch the component
(404 when absent), validate the component type against the scene's category
(400 on failure, no mutation), otherwise apply
`component.update_status(ACCEPTED, notes)` — with no check of the component's
current status — and render the component card. -/
def accept_component (db : DB) (cid : Nat) (notes : Option String) (now : Nat) :
    DB × Response :=
  match db.findComponent cid with
  | none => (db, Response.notFound "Component not found")
  | some c =>
    if (validate_component_category db.scene.category c.component_type).1 then
      (db.update_status cid ComponentStatus.accepted notes now, Response.ok)
    else
      (db, Response.badRequest
        (validate_component_category db.scene.category c.component_type).2)

/-- reject_component (src/app/routes.py lines 225-245): fetch the component
(404 when absent), require truthy notes (400, no mutation), otherwise apply
`component.update_status(REJECTED, notes)` — again with no check of the
current status and no category validation.  update_status commits through
RoomScene.update_statistics, after which `scene.update_review_progress()`
raises AttributeError (RoomScene has no such method), so the handler answers
500 although the rejection is already persisted. -/
def reject_component (db : DB) (cid : Nat) (notes : Option String) (now : Nat) :
    DB × Response :=
  match db.findComponent cid with
  | none => (db, Response.notFound "Component not found")
  | some _ =>
    if strTruthy notes then
      (db.update_status cid ComponentStatus.rejected notes now,
       Response.serverError "RoomScene object has no attribute update_review_progress")
    else
      (db, Response.badRequest "Rejection notes are required")

/-- Values accepted by the status route (`[s.value for s in ComponentStatus]`). -/
def statusValues : List String :=
  ["pending", "accepted", "rejected"]

/-- update_component_status (src/app/routes.py lines 379-407): fetch the
component (404), check the requested status string (400), then inside a
savepoint assign `component.status = new_status` (without touching
review_timestamp) and call `scene.update_review_progress()`, which raises
AttributeError.  The savepoint is rolled back and `db_session` never reaches
its commit, so nothing persists and the handler answers 500. -/
def update_component_status (db : DB) (cid : Nat) (new_status : String) :
    DB × Response :=
  match db.findComponent cid with
  | none => (db, Response.notFound "Component not found")
  | some _ =>
    if new_status ∈ statusValues then
      (db, Response.serverError "RoomScene object has no attribute update_review_progress")
    else
      (db, Response.badRequest "Invalid status")

/-- Component record created by SceneHandler._process_component
(src/app/processing/scene_handler.py lines 263-304): component_type is the
literal "auto_detected", and the columns status, review_timestamp and
reviewer_notes keep their defaults (PENDING, NULL, NULL) from
src/app/models.py. -/
def mkIngestedComponent (room_scene_id index : Nat) : Component :=
  { id := index
    room_scene_id := room_scene_id
    component_type := "auto_detected"
    status := ComponentStatus.pending
    review_timestamp := none
    reviewer_notes := none }

/-! Statistics refresh with retry, from src/app/processing/scene_handler.py. -/

/-- Outcome of one database attempt inside refresh_statistics: the refresh and
the SELECT either raise (Except.error, e.g. a lock timeout), return a row
(stats), or return no row for the scene (noRow, i.e. Python None). -/
inductive RefreshOutcome
  | stats (payload : Nat)
  | noRow
  deriving DecidableEq, Repr

/-- Body of SceneHandler.refresh_statistics (scene_handler.py lines 72-101):
the whole database interaction sits inside `try/except Exception`, which logs
the error and returns None, so no exception ever escapes the body.  The k-th
attempt's database behaviour is given by the oracle `store`. -/
def refreshBody (store : Nat → Except String RefreshOutcome) (k : Nat) :
    Option Nat :=
  match store k with
  | Except.error _ => none
  | Except.ok (RefreshOutcome.stats v) => some v
  | Except.ok RefreshOutcome.noRow => none

/-- tenacity retry loop with `stop=stop_after_attempt(fuel)`: runs the body,
retries while it raises and attempts remain, surfaces the final error
otherwise.  Returns (number of attempts executed, final result).  The
wait_exponential backoff between attempts only matters when a retry happens. -/
def retryLoop (body : Nat → Except String α) : Nat → Nat → Nat × Except String α
  | 0, _ => (0, Except.error "no attempts configured")
  | fuel + 1, k =>
    match body k with
    | Except.ok a => (1, Except.ok a)
    | Except.error e =>
      if fuel = 0 then (1, Except.error e)
      else
        let r := retryLoop body fuel (k + 1)
        (r.1 + 1, r.2)

/-- SceneHandler.refresh_statistics with its decorator
`@retry(stop=stop_after_attempt(3), wait=wait_exponential(multiplier=1, min=4, max=10))`:
the decorated function is the retryLoop applied to a body that never raises
(refreshBody catches everything and returns an Option).  Result: (attempts
actually executed, surfaced result). -/
def refresh_statistics (store : Nat → Except String RefreshOutcome) :
    Nat × Except String (Option Nat) :=
  retryLoop (fun k => Except.ok (refreshBody store k)) 3 0

/-! Statistics cache, from src/app/processing/scene_handler.py lines 65-68:
`@lru_cache(maxsize=128)` on get_cached_statistics(room_scene_id, cache_time).
The cache key is the argument pair; the caller in process_scene (line 154)
passes `datetime.now()` as cache_time. -/

/-- Key of the lru_cache: (room_scene_id, cache_time). -/
abbrev CacheKey := Nat × Nat

/-- functools.lru_cache(maxsize=128) lookup-or-compute for
get_cached_statistics.  The cache is a most-recently-used-first association
list.  A hit returns the cached snapshot, moves the entry to the front and
performs 0 refresh calls; a miss calls refresh_statistics once, inserts the
result and evicts beyond 128 entries.  Returns
(returned snapshot, cache afterwards, number of refresh invocations). -/
def get_cached_statistics (refresh : Nat → Option Nat)
    (cache : List (CacheKey × Option Nat)) (room_scene_id cache_time : Nat) :
    Option Nat × List (CacheKey × Option Nat) × Nat :=
  match cache.find? (fun e => e.1 == (room_scene_id, cache_time)) with
  | some e =>
    (e.2, (e.1, e.2) :: cache.filter (fun e2 => !(e2.1 == (room_scene_id, cache_time))), 0)
  | none =>
    let v := refresh room_scene_id
    (v, (((room_scene_id, cache_time), v) :: cache).take 128, 1)

/-- Two successive cached gets for the same scene starting from an empty
cache, at times t1 and t2: returns (first snapshot, second snapshot, total
number of refresh invocations). -/
def getTwice (refresh : Nat → Option Nat) (sid t1 t2 : Nat) :
    Option Nat × Option Nat × Nat :=
  let r1 := get_cached_statistics refresh [] sid t1
  let r2 := get_cached_statistics refresh r1.2.1 sid t2
  (r1.1, r2.1, r1.2.2 + r2.2.2)

/-! Scene ingestion, from SceneHandler.process_scene
(src/app/processing/scene_handler.py lines 103-176). -/

/-- ProcessingResult dataclass (scene_handler.py lines 27-35), restricted to
the fields the claims are about; components holds the ids of the detected
component records, error_component the error_details entry of the
component-failure branch. -/
structure ProcessingResult where
  success : Bool
  message : String
  room_scene_id : Option Nat
  components : List Nat
  error_component : Option String
  deriving DecidableEq, Repr

/-- The scene row as committed by the ingestion transaction. -/
structure SceneRow where
  scene_id : Nat
  n_components : Nat
  deriving DecidableEq, Repr

/-- SceneHandler._isolate_components (scene_handler.py lines 187-213) over an
abstract detector output `masks` and component writer `write`:
_process_component catches every exception it raises and returns None, and a
None is simply not appended, so the surviving components are the filterMap of
the writer over the masks. -/
def isolate_components (write : Nat → Option Nat) (masks : List Nat) : List Nat :=
  masks.filterMap write

/-- SceneHandler.process_scene (scene_handler.py lines 103-176) after scene
validation and image loading have succeeded: the scene row is inserted and
flushed to obtain its id, the components are written inside a savepoint, and
`if not components: raise ValueError("No components detected in scene")`
turns an empty batch into the component_processing failure branch, which
returns the scene id with an empty component list while the outer db_session
still commits the scene row.  Returns (ProcessingResult, committed scene
row). -/
def process_scene (scene_id : Nat) (masks : List Nat) (write : Nat → Option Nat) :
    ProcessingResult × SceneRow :=
  let components := isolate_components write masks
  if components.isEmpty then
    ({ success := false
       message := "Component processing failed"
       room_scene_id := some scene_id
       components := []
       error_component := some "No components detected in scene" },
     { scene_id := scene_id, n_components := 0 })
  else
    ({ success := true
       message := "Scene processed successfully"
       room_scene_id := some scene_id
       components := components
       error_component := none },
     { scene_id := scene_id, n_components := components.length })

/-! Concrete states used by witnesses and counterexamples. -/

/-- A living_room scene whose counters record one pending component. -/
def sceneOnePending : RoomScene :=
  { id := 1
    category := "living_room"
    total_components := 1
    pending_components := 1
    accepted_components := 0
    rejected_components := 0
    review_completion_time := none }

/-- A pending furniture component (furniture is valid for living_room). -/
def compPendingFurniture : Component :=
  { id := 1
    room_scene_id := 1
    component_type := "furniture"
    status := ComponentStatus.pending
    review_timestamp := none
    reviewer_notes := none }

/-- Scene with a single pending reviewable component. -/
def dbOnePending : DB :=
  { scene := sceneOnePending, components := [compPendingFurniture] }

/-- A component already in the terminal rejected state. -/
def compRejectedFurniture : Component :=
  { id := 1
    room_scene_id := 1
    component_type := "furniture"
    status := ComponentStatus.rejected
    review_timestamp := some 5
    reviewer_notes := some "old notes" }

/-- Scene whose single component has already been rejected. -/
def dbRejected : DB :=
  { scene :=
      { sceneOnePending with pending_components := 0, rejected_components := 1 }
    components := [compRejectedFurniture] }

/-- A pending appliance component: appliance is not a valid type for
living_room under ROOM_COMPONENT_MAPPINGS. -/
def compMismatch : Component :=
  { id := 1
    room_scene_id := 1
    component_type := "appliance"
    status := ComponentStatus.pending
    review_timestamp := none
    reviewer_notes := none }

/-- Scene whose single pending component mismatches the scene category. -/
def dbMismatch : DB :=
  { scene := sceneOnePending, components := [compMismatch] }

/-- Scene holding one component exactly as scene ingestion creates it. -/
def dbAuto : DB :=
  { scene := sceneOnePending, components := [mkIngestedComponent 1 1] }

/-! Specification predicates. -/

/-- Counter consistency of a scene: every counter equals the count of the
scene's components with the corresponding status, and the total is the sum
of the three partitions. -/
def countersConsistent (db : DB) : Prop :=
  db.scene.total_components = db.components.length
  ∧ db.scene.pending_components
      = (db.components.filter (fun c => decide (c.status = ComponentStatus.pending))).length
  ∧ db.scene.accepted_components
      = (db.components.filter (fun c => decide (c.status = ComponentStatus.accepted))).length
  ∧ db.scene.rejected_components
      = (db.components.filter (fun c => decide (c.status = ComponentStatus.rejected))).length
  ∧ db.scene.total_components
      = db.scene.pending_components + db.scene.accepted_components
        + db.scene.rejected_components

/-- Review-timestamp invariant: a component carries a review_timestamp exactly
when its status is no longer pending. -/
def tsInvariant (db : DB) : Prop :=
  ∀ c ∈ db.components,
    c.review_timestamp ≠ none ↔ c.status ≠ ComponentStatus.pending

/-! Helper lemmas. -/

/-- Every component has exactly one of the three statuses, so the length of a
component list is the sum of its three status counts. -/
theorem length_eq_sum_status_counts (l : List Component) :
    l.length
      = l.countP (fun c => decide (c.status = ComponentStatus.pending))
        + l.countP (fun c => decide (c.status = ComponentStatus.accepted))
        + l.countP (fun c => decide (c.status = ComponentStatus.rejected)) := by
  induction l with
  | nil => simp
  | cons c t ih =>
    cases hc : c.status <;>
      simp [List.countP_cons, hc, ih] <;> omega

/-- Mapping an id-preserving update over a component list commutes with
looking a component up by id. -/
theorem find?_map_update (l : List Component) (cid : Nat) (f : Component → Component)
    (hf : ∀ c, (f c).id = c.id) :
    (l.map (fun c => if c.id == cid then f c else c)).find? (fun c => c.id == cid)
      = (l.find? (fun c => c.id == cid)).map f := by
  induction l with
  | nil => rfl
  | cons c t ih =>
    simp only [List.map_cons]
    by_cases h : (c.id == cid) = true
    · rw [if_pos h]
      have h2 : ((f c).id == cid) = true := by rw [hf]; exact h
      rw [@List.find?_cons_of_pos Component (fun x => x.id == cid) (f c) _ h2,
        @List.find?_cons_of_pos Component (fun x => x.id == cid) c _ h]
      rfl
    · rw [if_neg h]
      rw [@List.find?_cons_of_neg Component (fun x => x.id == cid) c _ h,
        @List.find?_cons_of_neg Component (fun x => x.id == cid) c _ h]
      exact ih

/-- The scene produced by DB.update_statistics satisfies counter
consistency. -/
theorem countersConsistent_update_statistics (db : DB) :
    countersConsistent db.update_statistics := by
  refine ⟨rfl, ?_, ?_, ?_, ?_⟩
  · simp [DB.update_statistics, RoomScene.update_statistics,
      List.countP_eq_length_filter]
  · simp [DB.update_statistics, RoomScene.update_statistics,
      List.countP_eq_length_filter]
  · simp [DB.update_statistics, RoomScene.update_statistics,
      List.countP_eq_length_filter]
  · simpa [DB.update_statistics, RoomScene.update_statistics] using
      length_eq_sum_status_counts db.components

/-- DB.update_status recomputes the statistics last, so its result is counter
consistent as well. -/
theorem countersConsistent_update_status (db : DB) (cid : Nat)
    (st : ComponentStatus) (notes : Option String) (now : Nat) :
    countersConsistent (db.update_status cid st notes now) :=
  countersConsistent_update_statistics _

/-- A status update to a non-pending status preserves the review-timestamp
invariant: the touched component gets both a timestamp and a non-pending
status, the others are unchanged. -/
theorem tsInvariant_update_status (db : DB) (cid : Nat) (st : ComponentStatus)
    (notes : Option String) (now : Nat) (hst : st ≠ ComponentStatus.pending)
    (h : tsInvariant db) : tsInvariant (db.update_status cid st notes now) := by
  intro c hc
  simp only [DB.update_status, DB.update_statistics, List.mem_map] at hc
  obtain ⟨c0, hc0, rfl⟩ := hc
  by_cases hid : (c0.id == cid) = true
  · simp [hid, Component.update_status, hst]
  · simp only [hid, if_neg]
    · exact h c0 hc0

/-- The update_component_status route never persists a change: every branch
returns the database unchanged (the mutating branch dies on the missing
RoomScene.update_review_progress before any commit). -/
theorem update_component_status_no_mutation (db : DB) (cid : Nat) (s : String) :
    (update_component_status db cid s).1 = db := by
  unfold update_component_status
  cases db.findComponent cid
  · rfl
  · by_cases h : s ∈ statusValues <;> simp [h]

/-- For component types outside the ComponentType enum,
validate_component_category lands in the except branch for every category. -/
theorem validate_outside_enum (cat ct : String) (h : ct ∉ componentTypes) :
    validate_component_category cat ct
      = (false, "Invalid room category or component type") := by
  unfold validate_component_category
  by_cases hc : cat ∈ roomCategories
  · rw [if_pos hc, if_neg h]
  · rw [if_neg hc]

/-- Looking up the updated component commutes with DB.update_status. -/
theorem findComponent_update_status (db : DB) (cid : Nat) (st : ComponentStatus)
    (notes : Option String) (now : Nat) :
    (db.update_status cid st notes now).findComponent cid
      = (db.findComponent cid).map (fun c => c.update_status st notes now) := by
  unfold DB.findComponent DB.update_status DB.update_statistics
  exact find?_map_update db.components cid _ (fun c => rfl)

/-- When the component exists and its type validates against the scene
category, accept_component applies the accepted-status update and renders the
card; the current status of the component is never consulted. -/
theorem accept_applies_update (db : DB) (cid now : Nat) (notes : Option String)
    (c : Component) (h1 : db.findComponent cid = some c)
    (h2 : (validate_component_category db.scene.category c.component_type).1 = true) :
    accept_component db cid notes now
      = (db.update_status cid ComponentStatus.accepted notes now, Response.ok) := by
  unfold accept_component
  rw [h1]
  simp [h2]

/-- When the component exists and the category validation fails,
accept_component answers 400 with the validator's message and leaves the
database untouched. -/
theorem accept_invalid_is_rejected (db : DB) (cid now : Nat)
    (notes : Option String) (c : Component)
    (h1 : db.findComponent cid = some c)
    (h2 : (validate_component_category db.scene.category c.component_type).1 = false) :
    accept_component db cid notes now
      = (db, Response.badRequest
          (validate_component_category db.scene.category c.component_type).2) := by
  unfold accept_component
  rw [h1]
  simp [h2]

/-- When the component exists and the notes are truthy, reject_component
applies the rejected-status update (and then dies on the missing
update_review_progress, after the commit); neither the current status nor the
category is consulted. -/
theorem reject_applies_update (db : DB) (cid now : Nat) (notes : Option String)
    (c : Component) (h1 : db.findComponent cid = some c)
    (h3 : strTruthy notes = true) :
    (reject_component db cid notes now).1
      = db.update_status cid ComponentStatus.rejected notes now := by
  unfold reject_component
  rw [h1]
  simp [h3]

/-! Claim theorems. -/

/-- C1: for every scene, after RoomScene.update_statistics has run the
counters satisfy total = pending + accepted + rejected and each counter
equals the number of the scene's components with the corresponding status;
this holds both for a bare statistics recomputation and after any status
transition (DB.update_status ends by recomputing the statistics). -/
theorem counters_consistent_after_update_statistics (db : DB) (cid : Nat)
    (st : ComponentStatus) (notes : Option String) (now : Nat) :
    countersConsistent db.update_statistics
  ∧ countersConsistent (db.update_status cid st notes now) :=
  ⟨countersConsistent_update_statistics db,
   countersConsistent_update_status db cid st notes now⟩

/-- C2 counterexample: the component of dbRejected is already in the terminal
rejected state, yet accept_component silently applies the transition — the
status becomes accepted, review_timestamp is overwritten with the new time
and reviewer_notes with the new notes — instead of returning a domain error
and leaving the component unchanged. -/
theorem accept_overwrites_rejected_component :
    compRejectedFurniture.status = ComponentStatus.rejected
  ∧ Option.map Component.status
      ((accept_component dbRejected 1 (some "looks fine") 10).1.findComponent 1)
        = some ComponentStatus.accepted
  ∧ Option.map Component.review_timestamp
      ((accept_component dbRejected 1 (some "looks fine") 10).1.findComponent 1)
        = some (some 10)
  ∧ Option.map Component.reviewer_notes
      ((accept_component dbRejected 1 (some "looks fine") 10).1.findComponent 1)
        = some (some "looks fine") :=
  ⟨rfl, rfl, rfl, rfl⟩

/-- C2 amended: neither accept_component nor reject_component checks the
component's current status: whenever the component exists, its type validates
against the scene category and the notes are truthy, accept sets the status
to accepted and reject sets it to rejected, whatever the previous status
(including the supposedly terminal accepted and rejected states); no domain
error is produced for a double transition. -/
theorem transition_applied_regardless_of_current_status (db : DB)
    (cid now : Nat) (notes : Option String) (c : Component)
    (h1 : db.findComponent cid = some c)
    (h2 : (validate_component_category db.scene.category c.component_type).1 = true)
    (h3 : strTruthy notes = true) :
    Option.map Component.status
        ((accept_component db cid notes now).1.findComponent cid)
      = some ComponentStatus.accepted
  ∧ Option.map Component.status
        ((reject_component db cid notes now).1.findComponent cid)
      = some ComponentStatus.rejected := by
  constructor
  · rw [accept_applies_update db cid now notes c h1 h2]
    show Option.map Component.status
        ((db.update_status cid ComponentStatus.accepted notes now).findComponent cid)
      = some ComponentStatus.accepted
    rw [findComponent_update_status, h1]
    rfl
  · rw [reject_applies_update db cid now notes c h1 h3,
      findComponent_update_status, h1]
    rfl

/-- C2 witness: the amended claim instantiated on dbRejected, whose only
component is already rejected. -/
theorem transition_applied_regardless_of_current_status_witness :
    dbRejected.findComponent 1 = some compRejectedFurniture
  ∧ (validate_component_category dbRejected.scene.category
      compRejectedFurniture.component_type).1 = true
  ∧ strTruthy (some "looks fine") = true
  ∧ (Option.map Component.status
        ((accept_component dbRejected 1 (some "looks fine") 10).1.findComponent 1)
          = some ComponentStatus.accepted
     ∧ Option.map Component.status
        ((reject_component dbRejected 1 (some "looks fine") 10).1.findComponent 1)
          = some ComponentStatus.rejected) :=
  ⟨rfl, rfl, rfl,
   transition_applied_regardless_of_current_status dbRejected 1 10
     (some "looks fine") compRejectedFurniture rfl rfl rfl⟩

/-- C3 counterexample: the component of dbMismatch has type appliance, which
is invalid for the scene category living_room, yet reject_component with
truthy notes mutates the state and rejects the component instead of failing
with the category-mismatch error and performing no mutation. -/
theorem reject_ignores_category_mismatch :
    (validate_component_category dbMismatch.scene.category
        compMismatch.component_type).1 = false
  ∧ Option.map Component.status
      ((reject_component dbMismatch 1 (some "bad angle") 7).1.findComponent 1)
        = some ComponentStatus.rejected
  ∧ (reject_component dbMismatch 1 (some "bad angle") 7).1 ≠ dbMismatch :=
  ⟨rfl, rfl, by decide⟩

/-- C3 amended: only the accept operation validates the component type
against the scene category: accept on an invalid combination fails with the
category-mismatch message and performs no mutation, while reject performs no
category validation at all and, given truthy notes, applies the rejection
whatever the component type. -/
theorem only_accept_validates_category :
    (∀ (db : DB) (cid now : Nat) (notes : Option String) (c : Component),
        db.findComponent cid = some c →
        (validate_component_category db.scene.category c.component_type).1 = false →
        accept_component db cid notes now
          = (db, Response.badRequest
              (validate_component_category db.scene.category c.component_type).2))
  ∧ (∀ (db : DB) (cid now : Nat) (notes : Option String) (c : Component),
        db.findComponent cid = some c →
        strTruthy notes = true →
        Option.map Component.status
            ((reject_component db cid notes now).1.findComponent cid)
          = some ComponentStatus.rejected) := by
  constructor
  · intro db cid now notes c h1 h2
    exact accept_invalid_is_rejected db cid now notes c h1 h2
  · intro db cid now notes c h1 h3
    rw [reject_applies_update db cid now notes c h1 h3,
      findComponent_update_status, h1]
    rfl

/-- C3 witness: the amended claim instantiated on dbMismatch (appliance in a
living_room scene): accept fails with the mismatch message and changes
nothing, reject still rejects. -/
theorem only_accept_validates_category_witness :
    (dbMismatch.findComponent 1 = some compMismatch
     ∧ (validate_component_category dbMismatch.scene.category
          compMismatch.component_type).1 = false
     ∧ accept_component dbMismatch 1 none 7
         = (dbMismatch, Response.badRequest
             (validate_component_category dbMismatch.scene.category
               compMismatch.component_type).2))
  ∧ (strTruthy (some "bad angle") = true
     ∧ Option.map Component.status
         ((reject_component dbMismatch 1 (some "bad angle") 7).1.findComponent 1)
           = some ComponentStatus.rejected) :=
  ⟨⟨rfl, rfl,
    only_accept_validates_category.1 dbMismatch 1 7 none compMismatch rfl rfl⟩,
   ⟨rfl,
    only_accept_validates_category.2 dbMismatch 1 7 (some "bad angle")
      compMismatch rfl rfl⟩⟩

/-- C4: rejecting an existing component with absent or empty notes fails with
the missing-notes validation error and mutates nothing: the returned state is
the input state, so status, review_timestamp, reviewer_notes and the scene
counters are all unchanged. -/
theorem reject_without_notes_no_mutation (db : DB) (cid now : Nat)
    (notes : Option String) (c : Component)
    (h1 : db.findComponent cid = some c) (h2 : strTruthy notes = false) :
    reject_component db cid notes now
      = (db, Response.badRequest "Rejection notes are required") := by
  unfold reject_component
  rw [h1]
  simp [h2]

/-- C4 witness: rejecting the pending component of dbOnePending without notes
returns the missing-notes error and the unchanged state. -/
theorem reject_without_notes_no_mutation_witness :
    dbOnePending.findComponent 1 = some compPendingFurniture
  ∧ strTruthy none = false
  ∧ reject_component dbOnePending 1 none 9
      = (dbOnePending, Response.badRequest "Rejection notes are required") :=
  ⟨rfl, rfl,
   reject_without_notes_no_mutation dbOnePending 1 9 none compPendingFurniture
     rfl rfl⟩

/-- C5: the review-timestamp invariant (review_timestamp non-null iff status
is not pending) is preserved by every operation of the system: accept and
reject stamp the timestamp together with the status, update_component_status
persists nothing (it crashes before its commit), and ingestion creates
components that are pending with a null timestamp. -/
theorem review_timestamp_invariant_preserved (db : DB) (cid now sid idx : Nat)
    (notes : Option String) (s : String) (h : tsInvariant db) :
    tsInvariant (accept_component db cid notes now).1
  ∧ tsInvariant (reject_component db cid notes now).1
  ∧ tsInvariant (update_component_status db cid s).1
  ∧ (mkIngestedComponent sid idx).review_timestamp = none
  ∧ (mkIngestedComponent sid idx).status = ComponentStatus.pending := by
  refine ⟨?_, ?_, ?_, rfl, rfl⟩
  · unfold accept_component
    split
    · exact h
    · split
      · exact tsInvariant_update_status db cid _ notes now (by decide) h
      · exact h
  · unfold reject_component
    split
    · exact h
    · split
      · exact tsInvariant_update_status db cid _ notes now (by decide) h
      · exact h
  · rw [update_component_status_no_mutation]
    exact h

/-- C5 witness: the invariant instantiated on dbOnePending and preserved by
all the operations at concrete arguments. -/
theorem review_timestamp_invariant_preserved_witness :
    tsInvariant dbOnePending
  ∧ (tsInvariant (accept_component dbOnePending 1 (some "ok") 10).1
     ∧ tsInvariant (reject_component dbOnePending 1 (some "ok") 10).1
     ∧ tsInvariant (update_component_status dbOnePending 1 "accepted").1
     ∧ (mkIngestedComponent 1 2).review_timestamp = none
     ∧ (mkIngestedComponent 1 2).status = ComponentStatus.pending) :=
  ⟨by unfold tsInvariant; decide,
   review_timestamp_invariant_preserved dbOnePending 1 10 1 2 (some "ok")
     "accepted" (by unfold tsInvariant; decide)⟩

/-- C6 counterexample: rejecting the single pending component of dbOnePending
takes the pending counter from 1 to 0, yet review_completion_time is still
null afterwards — the transition that empties the pending set does not set
it. -/
theorem pending_reaches_zero_without_completion_time :
    dbOnePending.scene.pending_components = 1
  ∧ (reject_component dbOnePending 1 (some "bad angle") 9).1.scene.pending_components = 0
  ∧ (reject_component dbOnePending 1 (some "bad angle") 9).1.scene.review_completion_time
      = none :=
  ⟨rfl, rfl, rfl⟩

/-- C6 amended: no operation of the system ever writes review_completion_time
— accept, reject, the status route, a status update and a statistics
recomputation all leave it exactly as it was, including on the transition
that takes the pending counter from 1 to 0. -/
theorem review_completion_time_never_written (db : DB) (cid now : Nat)
    (notes : Option String) (st : ComponentStatus) (s : String) :
    (accept_component db cid notes now).1.scene.review_completion_time
        = db.scene.review_completion_time
  ∧ (reject_component db cid notes now).1.scene.review_completion_time
        = db.scene.review_completion_time
  ∧ (update_component_status db cid s).1.scene.review_completion_time
        = db.scene.review_completion_time
  ∧ (db.update_status cid st notes now).scene.review_completion_time
        = db.scene.review_completion_time
  ∧ (db.update_statistics).scene.review_completion_time
        = db.scene.review_completion_time := by
  refine ⟨?_, ?_, ?_, rfl, rfl⟩
  · unfold accept_component
    split
    · rfl
    · split
      · rfl
      · rfl
  · unfold reject_component
    split
    · rfl
    · split
      · rfl
      · rfl
  · rw [update_component_status_no_mutation]

/-- C7 counterexample: with a store that raises a transient error (a lock
timeout) on every attempt, refresh_statistics performs exactly one attempt
and returns None as a normal value — it is not re-attempted three times and
no RefreshFailedError (no error at all) is surfaced, because the body catches
every exception before the retry decorator can see it. -/
theorem refresh_swallows_transient_error :
    refresh_statistics (fun _ => Except.error "lock timeout")
      = (1, Except.ok none) :=
  rfl

/-- C7 amended: the retry decorator is configured for up to 3 attempts with
exponential backoff, but the body of refresh_statistics catches every
exception (transient or not) and returns None, so for every store behaviour
the function executes exactly one attempt and surfaces the first attempt's
caught result; no retry is performed and no RefreshFailedError exists. -/
theorem refresh_single_attempt (store : Nat → Except String RefreshOutcome) :
    refresh_statistics store = (1, Except.ok (refreshBody store 0)) :=
  rfl

/-- C8: an ingestion in which the detector yields zero components, or in
which every component write raises (each such exception is caught inside
_process_component, contributing nothing), returns a failure that still
carries the scene id and an empty component list, while the committed scene
row survives with zero components; moreover a zero-component result is never
reported as a success. -/
theorem ingest_zero_components_is_failure (sid : Nat) (masks : List Nat)
    (write : Nat → Option Nat)
    (h : masks = [] ∨ ∀ m, write m = none) :
    (process_scene sid masks write).1.success = false
  ∧ (process_scene sid masks write).1.room_scene_id = some sid
  ∧ (process_scene sid masks write).1.components = []
  ∧ (process_scene sid masks write).2 = { scene_id := sid, n_components := 0 }
  ∧ ∀ (masks2 : List Nat) (write2 : Nat → Option Nat),
      (process_scene sid masks2 write2).1.success = true →
      (process_scene sid masks2 write2).1.components ≠ [] := by
  have hempty : isolate_components write masks = [] := by
    rcases h with rfl | hw
    · rfl
    · exact List.filterMap_eq_nil_iff.mpr fun a _ => hw a
  refine ⟨?_, ?_, ?_, ?_, ?_⟩
  · simp [process_scene, hempty]
  · simp [process_scene, hempty]
  · simp [process_scene, hempty]
  · simp [process_scene, hempty]
  · intro masks2 write2 hsucc
    unfold process_scene at hsucc ⊢
    by_cases he : (isolate_components write2 masks2).isEmpty
    · rw [if_pos he] at hsucc
      simp at hsucc
    · rw [if_neg he] at hsucc ⊢
      simpa using he

/-- C8 witness: ingesting with a detector that produces no masks fails with
the scene id, an empty component list and a surviving empty scene row. -/
theorem ingest_zero_components_is_failure_witness :
    (([] : List Nat) = [] ∨ ∀ m : Nat, (fun _ => (none : Option Nat)) m = none)
  ∧ ((process_scene 7 [] (fun _ => none)).1.success = false
     ∧ (process_scene 7 [] (fun _ => none)).1.room_scene_id = some 7
     ∧ (process_scene 7 [] (fun _ => none)).1.components = []
     ∧ (process_scene 7 [] (fun _ => none)).2 = { scene_id := 7, n_components := 0 }
     ∧ ∀ (masks2 : List Nat) (write2 : Nat → Option Nat),
         (process_scene 7 masks2 write2).1.success = true →
         (process_scene 7 masks2 write2).1.components ≠ []) :=
  ⟨Or.inl rfl,
   ingest_zero_components_is_failure 7 [] (fun _ => none) (Or.inl rfl)⟩

/-- C9 counterexample: two consecutive gets for the same scene at times 0 and
1 — both inside any claimed TTL window — each invoke the refresh: the total
number of refresh invocations is 2, not 1, because the per-call timestamp is
part of the cache key, so the snapshot stored by the first get is never
served to the second. -/
theorem cache_new_timestamp_refreshes_again :
    getTwice (fun _ => some 42) 1 0 1 = (some 42, some 42, 2) :=
  rfl

/-- C9 amended: get_cached_statistics is memoised on the pair (scene id,
caller-supplied timestamp) with no TTL: starting from an empty cache, a
second get with the same timestamp is served from the cache (one refresh in
total, snapshot returned unchanged), while a second get with any other
timestamp invokes the refresh again (two refreshes in total); since the
caller passes the current time, every real call refreshes. -/
theorem cache_keyed_by_call_timestamp (refresh : Nat → Option Nat)
    (sid t1 t2 : Nat) :
    getTwice refresh sid t1 t2
      = (refresh sid, refresh sid, if t2 = t1 then 1 else 2) := by
  unfold getTwice get_cached_statistics
  by_cases h : t2 = t1
  · subst h
    simp
  · have hk : ((((sid, t1) : CacheKey), refresh sid).1 == ((sid, t2) : CacheKey)) = false := by
      apply beq_eq_false_iff_ne.mpr
      intro hc
      exact h (congrArg Prod.snd hc).symm
    simp [hk, h]

/-- C10: every component created by scene ingestion carries the type
auto_detected, a value outside the ComponentType enum; the category
validator returns False for auto_detected whatever the scene category, so
accept_component on such a component always fails with the category-mismatch
error and leaves the state unchanged — an ingested component can never be
transitioned to accepted. -/
theorem ingested_components_never_acceptable (sid idx cid now : Nat)
    (cat : String) (db : DB) (notes : Option String) (c : Component)
    (h1 : db.findComponent cid = some c)
    (h2 : c.component_type = "auto_detected") :
    (mkIngestedComponent sid idx).component_type = "auto_detected"
  ∧ (validate_component_category cat "auto_detected").1 = false
  ∧ accept_component db cid notes now
      = (db, Response.badRequest "Invalid room category or component type") := by
  have hv : validate_component_category db.scene.category c.component_type
      = (false, "Invalid room category or component type") := by
    rw [h2]
    exact validate_outside_enum _ _ (by decide)
  refine ⟨rfl, ?_, ?_⟩
  · rw [validate_outside_enum cat _ (by decide)]
  · rw [accept_invalid_is_rejected db cid now notes c h1 (by rw [hv]), hv]

/-- C10 witness: the single ingested component of dbAuto cannot be accepted:
the accept operation answers the category-mismatch error and changes
nothing. -/
theorem ingested_components_never_acceptable_witness :
    dbAuto.findComponent 1 = some (mkIngestedComponent 1 1)
  ∧ (mkIngestedComponent 1 1).component_type = "auto_detected"
  ∧ ((mkIngestedComponent 3 4).component_type = "auto_detected"
     ∧ (validate_component_category "living_room" "auto_detected").1 = false
     ∧ accept_component dbAuto 1 none 10
         = (dbAuto, Response.badRequest "Invalid room category or component type")) :=
  ⟨rfl, rfl,
   ingested_components_never_acceptable 3 4 1 10 "living_room" dbAuto none
     (mkIngestedComponent 1 1) rfl rfl⟩

end ImageProcessing
